import Mathlib

/-! Shallow embedding of the real-time synchronization backend found in
src/server.ts and src/unnamed/part_000.  Both files implement a WebSocket
message router over a four-collection in-memory cache together with a small
HTTP API.  Each handler is modelled as a pure Lean function: the server clock
(Date.now) is passed in explicitly, sends are returned as output events, and
the connection registry, session map and cache are threaded as explicit
state.  The namespace Server embeds src/server.ts; the namespace Part000
embeds src/unnamed/part_000. -/

/-- One line item of a sale payload; the code reads only id and quantity. -/
structure SaleItem where
  id : Nat
  quantity : Int
  deriving DecidableEq

/-- A cached stock record: id and quantity are the fields the code reads or
writes, fields stands for the rest of the application-defined payload. -/
structure StockItem where
  id : Nat
  quantity : Int
  fields : List (String × String)
  deriving DecidableEq

/-- Payload of a sale_update message or of a POST /api/sales body: opaque
application fields plus the optional items array of line items. -/
structure SaleData where
  fields : List (String × String)
  items : Option (List SaleItem)
  deriving DecidableEq

/-- Payload of a transaction_update message: an opaque structured record. -/
structure TransData where
  fields : List (String × String)
  deriving DecidableEq

/-- A live WebSocket channel: its identity and whether readyState is OPEN. -/
structure Conn where
  id : Nat
  isOpen : Bool
  deriving DecidableEq

/-- An outbound event: a private ws.send on the handling connection, or a
call to the broadcast function. -/
inductive Out (ω : Type) where
  | reply (m : ω)
  | bcast (m : ω)
  deriving DecidableEq

/-- An inbound frame: a message JSON.parse accepts, or one on which
JSON.parse throws. -/
inductive Frame (μ : Type) where
  | valid (m : μ)
  | malformed
  deriving DecidableEq

/-- Map.prototype.get on an association list keyed by connection id. -/
def mapGet {α : Type} : List (Nat × α) → Nat → Option α
  | [], _ => none
  | (k2, v) :: rest, k => if k2 = k then some v else mapGet rest k

/-- Map.prototype.set: overwrite the binding when present, else add it. -/
def mapSet {α : Type} : List (Nat × α) → Nat → α → List (Nat × α)
  | [], k, v => [(k, v)]
  | (k2, w) :: rest, k, v =>
      if k2 = k then (k, v) :: rest else (k2, w) :: mapSet rest k v

/-- Map.prototype.delete: drop any binding for the key. -/
def mapDelete {α : Type} : List (Nat × α) → Nat → List (Nat × α)
  | [], _ => []
  | (k2, w) :: rest, k =>
      if k2 = k then mapDelete rest k else (k2, w) :: mapDelete rest k

/-- Delivery of one outbound event: a reply goes to the sender only; a
broadcast is serialized once and sent to every registered connection whose
readyState is OPEN (both broadcast functions skip the others). -/
def deliver {ω : Type} (conns : List Conn) (sender : Nat) : Out ω → List (Nat × ω)
  | .reply m => [(sender, m)]
  | .bcast m => (conns.filter (fun c => c.isOpen)).map (fun c => (c.id, m))

namespace Server

/-- A user session as stored by the auth case of server.ts (lines 48-52). -/
structure Session where
  userType : String
  userName : String
  timestamp : Nat
  deriving DecidableEq

/-- A sale record in the cache: the payload spread together with the
server-assigned timestamp (server.ts lines 78-81). -/
structure SaleRecord where
  data : SaleData
  timestamp : Nat
  deriving DecidableEq

/-- A transaction record in the cache (server.ts lines 102-105). -/
structure TransRecord where
  data : TransData
  timestamp : Nat
  deriving DecidableEq

/-- The data field of an audit entry: the sale or transaction payload the
entry was logged for. -/
inductive AuditData where
  | sale (d : SaleData)
  | trans (d : TransData)
  deriving DecidableEq

/-- An audit entry as built by logAudit (server.ts lines 170-174). -/
structure AuditEntry where
  action : String
  data : AuditData
  timestamp : Nat
  deriving DecidableEq

/-- The shared in-memory cache of server.ts (lines 9-14). -/
structure Cache where
  stockItems : List StockItem
  sales : List SaleRecord
  transactions : List TransRecord
  audit : List AuditEntry
  deriving DecidableEq

/-- The mutable server state touched by the WebSocket handlers: the
connection registry, the session map and the cache. -/
structure WsState where
  connections : List Conn
  sessions : List (Nat × Session)
  cache : Cache
  deriving DecidableEq

/-- An inbound WebSocket message, keyed by its type tag; the constructor
named other covers the default branch of the switch (unknown types). -/
inductive Msg where
  | auth (userType userName : Option String)
  | stock_update (data : Option (List StockItem))
  | sale_update (data : Option SaleData)
  | transaction_update (data : Option TransData)
  | sync_request
  | other (t : String)
  deriving DecidableEq

/-- An outbound message of server.ts, keyed by its type tag. -/
inductive OutMsg where
  | connected
  | initial_data (stockItems : List StockItem) (sales : List SaleRecord)
      (transactions : List TransRecord)
  | stock_updated (data : List StockItem)
  | sales_updated (data : List SaleRecord)
  | transactions_updated (data : List TransRecord)
  | audit_updated (data : List AuditEntry)
  | sync_response (stockItems : List StockItem) (sales : List SaleRecord)
      (transactions : List TransRecord) (audit : List AuditEntry)
  | error (message : String)
  | cache_cleared
  deriving DecidableEq

/-- JavaScript truthiness of an optional string field: present and
non-empty (the auth guard tests message.userType and message.userName). -/
def truthyStr : Option String → Bool
  | none => false
  | some s => s != ""

/-- Array.prototype.find followed by the in-place decrement inside
updateStockLevels: only the first stock item whose id matches the line item
is changed; everything else is left as it was. -/
def adjustFirst : List StockItem → SaleItem → List StockItem
  | [], _ => []
  | s :: rest, item =>
      if s.id = item.id then
        { s with quantity := s.quantity - item.quantity } :: rest
      else
        s :: adjustFirst rest item

/-- updateStockLevels (server.ts lines 160-167): each line item, in order,
decrements the first matching cached stock item; a line item with no match
is a silent no-op. -/
def updateStockLevels (stock : List StockItem) (items : List SaleItem) :
    List StockItem :=
  items.foldl adjustFirst stock

/-- The switch on message.type inside ws.onmessage (server.ts lines 44-128),
with Date.now() passed in as now.  Returns the new state and the outbound
events in the order the code issues them. -/
def handleMessage (st : WsState) (sender : Nat) (msg : Msg) (now : Nat) :
    WsState × List (Out OutMsg) :=
  match msg with
  | .auth ut un =>
      if truthyStr ut && truthyStr un then
        ({ st with sessions := mapSet st.sessions sender
                     ({ userType := ut.getD "", userName := un.getD "",
                        timestamp := now }) },
         [.reply (.initial_data st.cache.stockItems st.cache.sales
            st.cache.transactions)])
      else
        (st, [])
  | .stock_update data =>
      ({ st with cache := { st.cache with stockItems := data.getD [] } },
       [.bcast (.stock_updated (data.getD []))])
  | .sale_update none => (st, [])
  | .sale_update (some d) =>
      ({ st with cache :=
           { st.cache with
             stockItems :=
               (match d.items with
                | some items => updateStockLevels st.cache.stockItems items
                | none => st.cache.stockItems),
             sales := st.cache.sales ++ [{ data := d, timestamp := now }],
             audit := st.cache.audit ++
               [{ action := "sale_created", data := .sale d,
                  timestamp := now }] } },
       [.bcast (.sales_updated
          (st.cache.sales ++ [{ data := d, timestamp := now }])),
        .bcast (.audit_updated
          (st.cache.audit ++
            [{ action := "sale_created", data := .sale d,
               timestamp := now }]))])
  | .transaction_update none => (st, [])
  | .transaction_update (some d) =>
      ({ st with cache :=
           { st.cache with
             transactions :=
               st.cache.transactions ++ [{ data := d, timestamp := now }],
             audit := st.cache.audit ++
               [{ action := "transaction_created", data := .trans d,
                  timestamp := now }] } },
       [.bcast (.transactions_updated
          (st.cache.transactions ++ [{ data := d, timestamp := now }])),
        .bcast (.audit_updated
          (st.cache.audit ++
            [{ action := "transaction_created", data := .trans d,
               timestamp := now }]))])
  | .sync_request =>
      (st, [.reply (.sync_response st.cache.stockItems st.cache.sales
              st.cache.transactions st.cache.audit)])
  | .other _ => (st, [])

/-- ws.onmessage (server.ts lines 40-136): JSON.parse then the switch; the
catch block answers a non-parseable frame with a single error message sent
to the sender only, touching neither the cache nor the registry. -/
def onMessage (st : WsState) (sender : Nat) (f : Frame Msg) (now : Nat) :
    WsState × List (Out OutMsg) :=
  match f with
  | .valid m => handleMessage st sender m now
  | .malformed => (st, [.reply (.error "Failed to process message")])

/-- ws.onclose (server.ts lines 138-142): remove the connection from the
registry and drop its session. -/
def onClose (st : WsState) (ws : Nat) : WsState :=
  { st with connections := st.connections.filter (fun c => c.id != ws),
            sessions := mapDelete st.sessions ws }

/-- ws.onerror (server.ts lines 144-148): the same two deletions. -/
def onError (st : WsState) (ws : Nat) : WsState := onClose st ws

/-- The HTTP responses the clear-cache branch can produce. -/
inductive ApiResp where
  | ok (message : String)
  | notFound
  deriving DecidableEq

/-- The clear-cache case of handleRequest (server.ts lines 213-228): on a
POST, empty all four collections, broadcast a cache_cleared notice and
return the confirmation body; any other method falls through to the
not-found response. -/
def clearCache (method : String) (c : Cache) :
    Cache × List (Out OutMsg) × ApiResp :=
  if method = "POST" then
    ({ stockItems := [], sales := [], transactions := [], audit := [] },
     [.bcast .cache_cleared], .ok "Cache cleared successfully")
  else
    (c, [], .notFound)

end Server

namespace Part000

/-- A user session as stored by the auth case of part_000 (lines 58-62):
both fields are stored exactly as received, possibly absent. -/
structure Session where
  userType : Option String
  userName : Option String
  authenticated : Bool
  deriving DecidableEq

/-- An opaque audit record; part_000 stores audit payloads as received. -/
structure AuditRec where
  fields : List (String × String)
  deriving DecidableEq

/-- The shared in-memory cache of part_000 (lines 8-13); no handler adds
timestamps, records are stored as received. -/
structure Cache where
  stockItems : List StockItem
  sales : List SaleData
  transactions : List TransData
  audit : List AuditRec
  deriving DecidableEq

/-- Payload of an inbound sync_response message: Object.assign overwrites
exactly the cache fields present in the payload. -/
structure SyncData where
  stockItems : Option (List StockItem)
  sales : Option (List SaleData)
  transactions : Option (List TransData)
  audit : Option (List AuditRec)
  deriving DecidableEq

/-- The mutable state of part_000: registry, session map and cache. -/
structure WsState where
  connections : List Conn
  sessions : List (Nat × Session)
  cache : Cache
  deriving DecidableEq

/-- An inbound message for the switch of part_000 (lines 55-100); the
switch has no default branch, so the constructor named other has no
effect. -/
inductive Msg where
  | auth (userType userName : Option String)
  | stock_update (data : Option (List StockItem))
  | sale_update (data : Option SaleData)
  | audit_update (data : Option AuditRec)
  | sync_request
  | sync_response (data : Option SyncData)
  | other (t : String)
  deriving DecidableEq

/-- An outbound message of part_000, keyed by its type tag. -/
inductive OutMsg where
  | connected
  | auth_success
  | stock_update (data : Option (List StockItem))
  | sale_update (data : Option SaleData)
  | audit_update (data : Option AuditRec)
  | sync_response (cache : Cache)
  deriving DecidableEq

/-- handleWebSocketMessage (part_000 lines 54-101): auth stores a session
unconditionally and acknowledges with auth_success; the three update cases
only rebroadcast the received payload and leave the cache alone;
sync_request answers the sender with the whole cache; sync_response merges
the payload into the cache field-wise. -/
def handleWebSocketMessage (st : WsState) (sender : Nat) (msg : Msg) :
    WsState × List (Out OutMsg) :=
  match msg with
  | .auth ut un =>
      ({ st with sessions := mapSet st.sessions sender
                   ({ userType := ut, userName := un, authenticated := true }) },
       [.reply .auth_success])
  | .stock_update data => (st, [.bcast (.stock_update data)])
  | .sale_update data => (st, [.bcast (.sale_update data)])
  | .audit_update data => (st, [.bcast (.audit_update data)])
  | .sync_request => (st, [.reply (.sync_response st.cache)])
  | .sync_response none => (st, [])
  | .sync_response (some d) =>
      ({ st with cache :=
          { stockItems := d.stockItems.getD st.cache.stockItems,
            sales := d.sales.getD st.cache.sales,
            transactions := d.transactions.getD st.cache.transactions,
            audit := d.audit.getD st.cache.audit } }, [])
  | .other _ => (st, [])

/-- ws.onmessage (part_000 lines 34-41): the catch block only logs; a
non-parseable frame produces no outbound message and no state change. -/
def onMessage (st : WsState) (sender : Nat) (f : Frame Msg) :
    WsState × List (Out OutMsg) :=
  match f with
  | .valid m => handleWebSocketMessage st sender m
  | .malformed => (st, [])

/-- ws.onclose (part_000 lines 43-46): only connections.delete runs; the
sessions map is left untouched. -/
def onClose (st : WsState) (ws : Nat) : WsState :=
  { st with connections := st.connections.filter (fun c => c.id != ws) }

/-- ws.onerror (part_000 lines 48-51): same as onclose. -/
def onError (st : WsState) (ws : Nat) : WsState := onClose st ws

/-- The POST branch of the /api/sales case of handleAPI (part_000 lines
173-178): push the decoded body onto the sales collection and broadcast a
sale_update message carrying it; the HTTP response is a success body. -/
def apiSalesPost (st : WsState) (body : SaleData) :
    WsState × List (Out OutMsg) :=
  ({ st with cache := { st.cache with sales := st.cache.sales ++ [body] } },
   [.bcast (.sale_update (some body))])

end Part000

/-- Helper: adjustFirst leaves the stock list unchanged when no cached id
matches the line item. -/
theorem adjustFirst_of_no_match (stock : List StockItem) (it : SaleItem)
    (h : ∀ s ∈ stock, s.id ≠ it.id) : Server.adjustFirst stock it = stock := by
  induction stock with
  | nil => rfl
  | cons s rest ih =>
      have hs : ¬ s.id = it.id := h s (List.mem_cons_self s rest)
      simp only [Server.adjustFirst, if_neg hs]
      rw [ih (fun x hx => h x (List.mem_cons_of_mem s hx))]

/-- Helper: updateStockLevels is the identity when no line item matches any
cached stock id. -/
theorem updateStockLevels_of_no_match (stock : List StockItem)
    (items : List SaleItem)
    (h : ∀ it ∈ items, ∀ s ∈ stock, s.id ≠ it.id) :
    Server.updateStockLevels stock items = stock := by
  induction items with
  | nil => rfl
  | cons it rest ih =>
      have h1 : Server.adjustFirst stock it = stock :=
        adjustFirst_of_no_match stock it
          (fun s hs => h it (List.mem_cons_self it rest) s hs)
      show List.foldl Server.adjustFirst (Server.adjustFirst stock it) rest = stock
      rw [h1]
      exact ih (fun it2 h2 s hs => h it2 (List.mem_cons_of_mem it h2) s hs)

/-- Helper: adjustFirst decrements exactly the first matching stock item
and leaves every other record untouched. -/
theorem adjustFirst_first_match (pre post : List StockItem) (s : StockItem)
    (it : SaleItem) (hpre : ∀ x ∈ pre, x.id ≠ it.id) (hs : s.id = it.id) :
    Server.adjustFirst (pre ++ s :: post) it
      = pre ++ { s with quantity := s.quantity - it.quantity } :: post := by
  induction pre with
  | nil => simp only [List.nil_append, Server.adjustFirst, if_pos hs]
  | cons x rest ih =>
      have hx : ¬ x.id = it.id := hpre x (List.mem_cons_self x rest)
      simp only [List.cons_append, Server.adjustFirst, if_neg hx]
      exact congrArg (fun l => x :: l)
        (ih (fun y hy => hpre y (List.mem_cons_of_mem x hy)))

/-- Helper: after Map.prototype.delete the key is no longer bound. -/
theorem mapGet_mapDelete {α : Type} (m : List (Nat × α)) (k : Nat) :
    mapGet (mapDelete m k) k = none := by
  induction m with
  | nil => rfl
  | cons p rest ih =>
      obtain ⟨k2, w⟩ := p
      by_cases h : k2 = k
      · simpa [mapDelete, h] using ih
      · simp [mapDelete, mapGet, h, ih]

/-- C1 counterexample: with cached stock [(id 1, qty 5), (id 1, qty 5)] and
a sale carrying the single line item (id 1, qty 2), the handler decrements
only the first record (Array.prototype.find): the second cached item has
the same matching id yet keeps quantity 5 instead of the 5 - 2 the claim
requires for each matching item. -/
theorem c1_counterexample :
    (Server.handleMessage ⟨[], [], ⟨[⟨1, 5, []⟩, ⟨1, 5, []⟩], [], [], []⟩⟩ 0
        (.sale_update (some ⟨[], some [⟨1, 2⟩]⟩)) 100).1.cache.stockItems
      = [⟨1, 3, []⟩, ⟨1, 5, []⟩]
    ∧ (5 : Int) ≠ 5 - 2 := by
  refine ⟨rfl, by decide⟩

/-- C1 (amended): for every sale_update message carrying a data payload the
handler appends the sale with the server timestamp to the sales collection,
broadcasts the updated sales collection, adjusts the stock via
updateStockLevels when the payload carries line items, appends an audit
entry for the sale and broadcasts the updated audit collection; moreover a
batch of line items none of which matches any cached stock id leaves the
stock collection unchanged, and a single line item decrements exactly the
first cached stock item whose id matches, leaving all other records as they
were. -/
theorem c1_sale_update_amended :
    ∀ (st : Server.WsState) (sender : Nat) (d : SaleData) (now : Nat),
      (Server.handleMessage st sender (.sale_update (some d)) now =
        ({ st with cache :=
             { st.cache with
               stockItems :=
                 (match d.items with
                  | some items =>
                      Server.updateStockLevels st.cache.stockItems items
                  | none => st.cache.stockItems),
               sales := st.cache.sales ++ [{ data := d, timestamp := now }],
               audit := st.cache.audit ++
                 [{ action := "sale_created", data := .sale d,
                    timestamp := now }] } },
         [.bcast (.sales_updated
            (st.cache.sales ++ [{ data := d, timestamp := now }])),
          .bcast (.audit_updated
            (st.cache.audit ++
              [{ action := "sale_created", data := .sale d,
                 timestamp := now }]))]))
      ∧ (∀ items, d.items = some items →
          (∀ it ∈ items, ∀ s ∈ st.cache.stockItems, s.id ≠ it.id) →
          Server.updateStockLevels st.cache.stockItems items
            = st.cache.stockItems)
      ∧ (∀ (pre post : List StockItem) (s : StockItem) (it : SaleItem),
          (∀ x ∈ pre, x.id ≠ it.id) → s.id = it.id →
          Server.updateStockLevels (pre ++ s :: post) [it]
            = pre ++ { s with quantity := s.quantity - it.quantity } :: post) := by
  intro st sender d now
  refine ⟨rfl, ?_, ?_⟩
  · intro items hitems h
    exact updateStockLevels_of_no_match _ _ h
  · intro pre post s it hpre hs
    show Server.adjustFirst (pre ++ s :: post) it = _
    exact adjustFirst_first_match pre post s it hpre hs

/-- Witness for C1: a line item with an unmatched id leaves the stock
collection unchanged, and a matched one decrements the first match. -/
theorem c1_sale_update_amended_witness :
    Server.updateStockLevels [⟨1, 5, []⟩] [⟨2, 3⟩] = [⟨1, 5, []⟩]
    ∧ Server.updateStockLevels ([] ++ ⟨1, 5, []⟩ :: []) [⟨1, 2⟩]
        = [] ++ (⟨1, 5 - 2, []⟩ : StockItem) :: [] :=
  ⟨(c1_sale_update_amended ⟨[], [], ⟨[⟨1, 5, []⟩], [], [], []⟩⟩ 0
      ⟨[], some [⟨2, 3⟩]⟩ 7).2.1 [⟨2, 3⟩] rfl (by decide),
   (c1_sale_update_amended ⟨[], [], ⟨[], [], [], []⟩⟩ 0 ⟨[], none⟩ 7).2.2
      [] [] ⟨1, 5, []⟩ ⟨1, 2⟩ (by decide) rfl⟩

/-- C2 counterexample: from the empty state, POST /api/sales appends the
body to the sales collection while the WebSocket sale_update handler of
part_000 leaves the cache untouched, so the final cache states differ. -/
theorem c2_counterexample :
    (Part000.apiSalesPost ⟨[], [], ⟨[], [], [], []⟩⟩ ⟨[], none⟩).1.cache.sales
      = [⟨[], none⟩]
    ∧ (Part000.handleWebSocketMessage ⟨[], [], ⟨[], [], [], []⟩⟩ 0
        (.sale_update (some ⟨[], none⟩))).1.cache.sales = []
    ∧ ([(⟨[], none⟩ : SaleData)] ≠ ([] : List SaleData)) := by
  refine ⟨rfl, rfl, by decide⟩

/-- C2 (amended): a POST /api/sales with body B and a WebSocket sale_update
message carrying the same payload B produce identical broadcast payloads
(one sale_update message carrying B in both cases), but not equivalent
final cache state: the POST appends B to the sales collection while the
WebSocket handler leaves the Shared Cache unchanged. -/
theorem c2_api_ws_amended :
    ∀ (st : Part000.WsState) (sender : Nat) (b : SaleData),
      (Part000.apiSalesPost st b).2 = [.bcast (.sale_update (some b))]
      ∧ (Part000.handleWebSocketMessage st sender (.sale_update (some b))).2
          = [.bcast (.sale_update (some b))]
      ∧ (Part000.apiSalesPost st b).1
          = { st with cache :=
                { st.cache with sales := st.cache.sales ++ [b] } }
      ∧ (Part000.handleWebSocketMessage st sender (.sale_update (some b))).1
          = st :=
  fun st sender b => ⟨rfl, rfl, rfl, rfl⟩

/-- C3 counterexample: in part_000, a stock_update message carrying a
one-item payload leaves the cached stock collection empty instead of
replacing it with the payload. -/
theorem c3_counterexample :
    (Part000.handleWebSocketMessage ⟨[], [], ⟨[], [], [], []⟩⟩ 0
        (.stock_update (some [⟨1, 5, []⟩]))).1.cache.stockItems = []
    ∧ (([] : List StockItem) ≠ [⟨1, 5, []⟩]) := by
  refine ⟨rfl, by decide⟩

/-- C3 (amended): in server.ts every inbound stock_update message replaces
the cached stock collection with the supplied payload and broadcasts the
new stock collection; in part_000 the handler broadcasts the supplied
payload unchanged to all connections without modifying the cache. -/
theorem c3_stock_update_amended :
    (∀ (st : Server.WsState) (sender : Nat) (l : List StockItem) (now : Nat),
        Server.handleMessage st sender (.stock_update (some l)) now
          = ({ st with cache := { st.cache with stockItems := l } },
             [.bcast (.stock_updated l)]))
    ∧ (∀ (st : Part000.WsState) (sender : Nat) (d : Option (List StockItem)),
        Part000.handleWebSocketMessage st sender (.stock_update d)
          = (st, [.bcast (.stock_update d)])) :=
  ⟨fun st sender l now => rfl, fun st sender d => rfl⟩

/-- C4 counterexample: in part_000 a non-parseable frame produces no
outbound message at all (the catch block only logs), so the sender does not
receive the single error-typed message the claim requires. -/
theorem c4_counterexample :
    (Part000.onMessage ⟨[⟨1, true⟩], [], ⟨[], [], [], []⟩⟩ 1 .malformed).2 = []
    ∧ (([] : List (Out Part000.OutMsg)).length ≠ 1) := by
  refine ⟨rfl, by decide⟩

/-- C4 (amended): a non-parseable frame never crashes the connection: in
both files the state (cache, registry, sessions) is unchanged, no broadcast
occurs, and any subsequent frame is handled exactly as if the malformed one
had never arrived; server.ts additionally sends exactly one error-typed
message delivered to the sender only, while part_000 sends nothing. -/
theorem c4_malformed_amended :
    (∀ (st : Server.WsState) (sender : Nat) (now : Nat),
        Server.onMessage st sender .malformed now
          = (st, [.reply (.error "Failed to process message")])
        ∧ deliver st.connections sender
            (Out.reply (Server.OutMsg.error "Failed to process message"))
            = [(sender, Server.OutMsg.error "Failed to process message")]
        ∧ (∀ (f : Frame Server.Msg) (now2 : Nat),
            Server.onMessage (Server.onMessage st sender .malformed now).1
                sender f now2
              = Server.onMessage st sender f now2))
    ∧ (∀ (st : Part000.WsState) (sender : Nat),
        Part000.onMessage st sender .malformed = (st, [])
        ∧ (∀ (f : Frame Part000.Msg),
            Part000.onMessage (Part000.onMessage st sender .malformed).1
                sender f
              = Part000.onMessage st sender f)) :=
  ⟨fun st sender now => ⟨rfl, rfl, fun f now2 => rfl⟩,
   fun st sender => ⟨rfl, fun f => rfl⟩⟩

/-- C5: in both files, handling a sync_request replies privately to the
requesting connection only, with a snapshot carrying all four collections
exactly as the Shared Cache currently holds them, and changes nothing; the
state is universally quantified, so the property holds after any sequence
of prior mutations. -/
theorem c5_sync_snapshot :
    (∀ (st : Server.WsState) (sender : Nat) (now : Nat),
        Server.handleMessage st sender .sync_request now
          = (st, [.reply (.sync_response st.cache.stockItems st.cache.sales
                    st.cache.transactions st.cache.audit)]))
    ∧ (∀ (st : Part000.WsState) (sender : Nat),
        Part000.handleWebSocketMessage st sender .sync_request
          = (st, [.reply (.sync_response st.cache)])) :=
  ⟨fun st sender now => rfl, fun st sender => rfl⟩

/-- C6 counterexample: part_000 creates a session even when both auth
fields are absent, refuting that the Session is created only when both are
present; and server.ts answers a valid auth with an initial_data message
carrying only stock, sales and transactions although the cached audit
collection is non-empty, so the reply is neither a bare acknowledgment nor
a snapshot of all four collections. -/
theorem c6_counterexample :
    mapGet (Part000.handleWebSocketMessage ⟨[⟨1, true⟩], [], ⟨[], [], [], []⟩⟩
        1 (.auth none none)).1.sessions 1
      = some ⟨none, none, true⟩
    ∧ (Server.handleMessage
         ⟨[⟨1, true⟩], [],
          ⟨[], [], [], [⟨"sale_created", .sale ⟨[], none⟩, 5⟩]⟩⟩ 1
         (.auth (some "admin") (some "Ann")) 9).2
        = [.reply (.initial_data [] [] [])] := by
  refine ⟨rfl, by decide⟩

/-- C6 (amended): part_000 unconditionally creates or overwrites the
Session on any auth message and replies with an auth_success
acknowledgment; server.ts creates or overwrites the Session exactly when
both fields are present and non-empty, in which case it replies with a
snapshot of the stock, sales and transactions collections (audit omitted),
and otherwise does nothing. -/
theorem c6_auth_amended :
    (∀ (st : Part000.WsState) (sender : Nat) (ut un : Option String),
        Part000.handleWebSocketMessage st sender (.auth ut un)
          = ({ st with sessions := mapSet st.sessions sender
                         ({ userType := ut, userName := un,
                            authenticated := true }) },
             [.reply .auth_success]))
    ∧ (∀ (st : Server.WsState) (sender : Nat) (ut un : Option String)
          (now : Nat),
        (Server.truthyStr ut && Server.truthyStr un) = true →
          Server.handleMessage st sender (.auth ut un) now
            = ({ st with sessions := mapSet st.sessions sender
                           ({ userType := ut.getD "", userName := un.getD "",
                              timestamp := now }) },
               [.reply (.initial_data st.cache.stockItems st.cache.sales
                  st.cache.transactions)]))
    ∧ (∀ (st : Server.WsState) (sender : Nat) (ut un : Option String)
          (now : Nat),
        (Server.truthyStr ut && Server.truthyStr un) = false →
          Server.handleMessage st sender (.auth ut un) now = (st, [])) := by
  refine ⟨fun st sender ut un => rfl, ?_, ?_⟩
  · intro st sender ut un now h
    simp [Server.handleMessage, h]
  · intro st sender ut un now h
    simp [Server.handleMessage, h]

/-- Witness for C6: a concrete valid auth creates the session and replies
with the three-collection snapshot. -/
theorem c6_auth_amended_witness :
    Server.handleMessage ⟨[], [], ⟨[], [], [], []⟩⟩ 2
        (.auth (some "admin") (some "Ann")) 3
      = (⟨[], [(2, ⟨"admin", "Ann", 3⟩)], ⟨[], [], [], []⟩⟩,
         [.reply (.initial_data [] [] [])]) :=
  c6_auth_amended.2.1 ⟨[], [], ⟨[], [], [], []⟩⟩ 2 (some "admin")
    (some "Ann") 3 (by decide)

/-- C7: a POST to clear-cache empties all four collections, broadcasts a
cache_cleared notice that reaches every open registered connection, and
returns the confirmation body; on the emptied cache a sync_request snapshot
returns four empty sequences. -/
theorem c7_clear_cache :
    ∀ (c : Server.Cache) (conns : List Conn) (now : Nat),
      Server.clearCache "POST" c
        = (⟨[], [], [], []⟩, [.bcast .cache_cleared],
           .ok "Cache cleared successfully")
      ∧ (∀ cn ∈ conns, cn.isOpen = true →
          (cn.id, Server.OutMsg.cache_cleared) ∈
            deliver conns 0 (.bcast Server.OutMsg.cache_cleared))
      ∧ (∀ (st : Server.WsState) (sender : Nat),
          st.cache = ⟨[], [], [], []⟩ →
          Server.handleMessage st sender .sync_request now
            = (st, [.reply (.sync_response [] [] [] [])])) := by
  intro c conns now
  refine ⟨rfl, ?_, ?_⟩
  · intro cn hmem hopen
    simp only [deliver, List.mem_map]
    exact ⟨cn, List.mem_filter.mpr ⟨hmem, hopen⟩, rfl⟩
  · intro st sender h
    have hrw : Server.handleMessage st sender .sync_request now
        = (st, [.reply (.sync_response st.cache.stockItems st.cache.sales
                  st.cache.transactions st.cache.audit)]) := rfl
    rw [hrw, h]

/-- Witness for C7: one open connection receives the cache_cleared notice
and the post-clear snapshot is empty. -/
theorem c7_clear_cache_witness :
    Server.clearCache "POST" ⟨[⟨1, 5, []⟩], [], [], []⟩
      = (⟨[], [], [], []⟩, [.bcast .cache_cleared],
         .ok "Cache cleared successfully")
    ∧ (1, Server.OutMsg.cache_cleared) ∈
        deliver [⟨1, true⟩] 0 (.bcast Server.OutMsg.cache_cleared)
    ∧ Server.handleMessage ⟨[], [], ⟨[], [], [], []⟩⟩ 4 .sync_request 9
      = (⟨[], [], ⟨[], [], [], []⟩⟩, [.reply (.sync_response [] [] [] [])]) :=
  ⟨(c7_clear_cache ⟨[⟨1, 5, []⟩], [], [], []⟩ [⟨1, true⟩] 9).1,
   (c7_clear_cache ⟨[⟨1, 5, []⟩], [], [], []⟩ [⟨1, true⟩] 9).2.1
      ⟨1, true⟩ (by decide) rfl,
   (c7_clear_cache ⟨[⟨1, 5, []⟩], [], [], []⟩ [⟨1, true⟩] 9).2.2
      ⟨[], [], ⟨[], [], [], []⟩⟩ 4 rfl⟩

/-- C8: server.ts unregistration removes the connection from the registry
and drops its session, but the part_000 close and error handlers leave the
sessions map untouched while removing the connection, so there a Session
does outlive its connection; the last conjunct evaluates the part_000
close handler on a state holding an authenticated session for the closing
connection and finds the session still bound afterwards. -/
theorem c8_session_lifecycle :
    ∀ (stP : Part000.WsState) (stS : Server.WsState) (ws : Nat),
      (Part000.onClose stP ws).sessions = stP.sessions
      ∧ (Part000.onClose stP ws).connections
          = stP.connections.filter (fun c => c.id != ws)
      ∧ Part000.onError stP ws = Part000.onClose stP ws
      ∧ mapGet (Server.onClose stS ws).sessions ws = none
      ∧ (Server.onClose stS ws).connections
          = stS.connections.filter (fun c => c.id != ws)
      ∧ Server.onError stS ws = Server.onClose stS ws
      ∧ mapGet (Part000.onClose
          ⟨[⟨1, true⟩], [(1, ⟨some "admin", some "Ann", true⟩)],
            ⟨[], [], [], []⟩⟩ 1).sessions 1
          = some ⟨some "admin", some "Ann", true⟩ := by
  intro stP stS ws
  exact ⟨rfl, rfl, rfl, mapGet_mapDelete stS.sessions ws, rfl, rfl, rfl⟩

/-- C9: a stock_update message whose data field is absent or null replaces
the cached stock collection with the empty sequence (message.data || [])
and broadcasts the empty collection. -/
theorem c9_stock_update_empty :
    ∀ (st : Server.WsState) (sender : Nat) (now : Nat),
      Server.handleMessage st sender (.stock_update none) now
        = ({ st with cache := { st.cache with stockItems := [] } },
           [.bcast (.stock_updated [])]) :=
  fun st sender now => rfl

/-- C10: a sale_update or transaction_update message without a data field
is a complete no-op: the whole state, all four collections included, is
unchanged and no outbound event is produced. -/
theorem c10_missing_data_noop :
    ∀ (st : Server.WsState) (sender : Nat) (now : Nat),
      Server.handleMessage st sender (.sale_update none) now = (st, [])
      ∧ Server.handleMessage st sender (.transaction_update none) now
          = (st, []) :=
  fun st sender now => ⟨rfl, rfl⟩
